import Mathlib

/-!
Verification of the KneeKlinic mobile client.

Shallow embedding of the client-side logic of the repository:
the accelerometer step-detection heuristic of `StepCounterScreen`
(ProfileScreen.tsx), the axios request/response interceptors of the shared
API client, the auth context's logout path, the signup/login/OTP form
handlers, and the exercise-plan toggle. JavaScript numbers are modelled as
`ℚ` (for sensor values and metrics) or `Int`/`Nat` (for timestamps and
counts); JavaScript strings are modelled as `List Char` where character
level operations matter and as `String` where only equality matters;
`AsyncStorage` is modelled as a partial map from keys to strings; fallible
network calls are modelled by an explicit outcome parameter.
-/

namespace KneeKlinic

/-! ### Step counter (StepCounterScreen, ProfileScreen.tsx lines 1456-1716)

The accelerometer listener computes
`acceleration = Math.sqrt(x*x + y*y + z*z) - 1.0` and drives a two state
machine.  The listener body only ever looks at the derived `acceleration`
value, so the embedding takes that value (a `ℚ`, standing for the JS
number) together with the current time `now` (`Date.now()`, an `Int`
millisecond count) as the per-sample input. -/

/-- The `stepState` ref holds `'up' | 'down'`. -/
inductive StepPhase where
  | up : StepPhase
  | down : StepPhase
deriving DecidableEq, Repr

/-- The mutable refs of `StepCounterScreen` that the listener reads and
writes: `stepState`, `lastStepTime` and the `sessionSteps` state.
`sessionSteps` is a JS number; it is modelled as `Int` so that its
non-negativity is a provable invariant rather than a typing artefact. -/
structure StepMachine where
  phase : StepPhase
  lastStepTime : Int
  steps : Int
deriving DecidableEq, Repr

/-- Constant `stepThreshold = 0.08`. -/
def stepThreshold : ℚ := 8 / 100

/-- Constant `minStepInterval = 250`. -/
def minStepInterval : Int := 250

/-- The body of the `Accelerometer.addListener` callback in
`startCounting` (ProfileScreen.tsx lines 1550-1582), as a pure transition
on the machine state, given the derived `acceleration` sample and `now`. -/
def accelListener (st : StepMachine) (acceleration : ℚ) (now : Int) :
    StepMachine :=
  if acceleration > stepThreshold ∧ st.phase = StepPhase.down then
    { st with phase := StepPhase.up }
  else if acceleration < -stepThreshold ∧ st.phase = StepPhase.up then
    if now - st.lastStepTime > minStepInterval then
      { phase := StepPhase.down, lastStepTime := now, steps := st.steps + 1 }
    else
      { st with phase := StepPhase.down }
  else
    st

/-- The machine state established by `startCounting` (lines 1532-1541):
`sessionSteps = 0`, `stepState = 'down'`, `lastStepTime = Date.now()`. -/
def startCountingState (now : Int) : StepMachine :=
  { phase := StepPhase.down, lastStepTime := now, steps := 0 }

/-- Feeding a whole trace of `(acceleration, now)` samples to the
listener. -/
def runListener (st : StepMachine) (trace : List (ℚ × Int)) : StepMachine :=
  trace.foldl (fun s p => accelListener s p.1 p.2) st

/-! Live-display metrics (`calculateDistance`, `calculateCalories`, lines
1710-1716) and the metrics computed by `stopCounting` (lines 1611-1613).
`0.762` and `0.04` are modelled exactly as rationals; the display applies
`toFixed` formatting on top of these values, which is not modelled. -/

/-- Function `calculateDistance`: `(sessionSteps * 0.762) / 1000`, in km. -/
def calculateDistance (sessionSteps : ℕ) : ℚ :=
  (sessionSteps * (762 / 1000)) / 1000

/-- Function `calculateCalories`: `sessionSteps * 0.04`, in kcal. -/
def calculateCalories (sessionSteps : ℕ) : ℚ :=
  sessionSteps * (4 / 100)

/-- The `distance` local of `stopCounting`: `(sessionSteps * 0.762) / 1000`. -/
def stopCountingDistance (sessionSteps : ℕ) : ℚ :=
  (sessionSteps * (762 / 1000)) / 1000

/-- The `calories` local of `stopCounting`: `sessionSteps * 0.04`. -/
def stopCountingCalories (sessionSteps : ℕ) : ℚ :=
  sessionSteps * (4 / 100)

/-! ### AsyncStorage, the shared API client, and the auth context

`STORAGE_KEYS` (config/constants), the axios interceptors of
`services/api.ts` (src/unnamed/part_004), and `AuthProvider`
(context/AuthContext, in src/src/services/communityService.ts). -/

/-- Key `STORAGE_KEYS.TOKEN`. -/
def STORAGE_KEYS_TOKEN : String := "@kneeklinic:token"

/-- Key `STORAGE_KEYS.USER`. -/
def STORAGE_KEYS_USER : String := "@kneeklinic:user"

/-- Key `STORAGE_KEYS.HAS_ONBOARDED`. -/
def STORAGE_KEYS_HAS_ONBOARDED : String := "@kneeklinic:hasOnboarded"

/-- The `AsyncStorage` contents: a partial map from keys to stored strings. -/
def Storage : Type := String → Option String

/-- Removing one key from storage. -/
def removeItem (s : Storage) (k : String) : Storage :=
  fun k' => if k' = k then none else s k'

/-- Function `AsyncStorage.multiRemove`. -/
def multiRemove (s : Storage) (ks : List String) : Storage :=
  ks.foldl removeItem s

/-- The error value the axios response-error interceptor receives:
`error.response?.status` is `none` for network errors (no response) and
`some status` otherwise; `message` stands for the rest of the error
object, carried through unchanged. -/
structure ResponseError where
  status : Option Nat
  message : String
deriving DecidableEq, Repr

/-- The response-error interceptor of `apiClient`
(src/unnamed/part_004 lines 52-68): on `error.response?.status === 401`
it runs `AsyncStorage.multiRemove([STORAGE_KEYS.TOKEN, STORAGE_KEYS.USER])`,
and in every case it returns `Promise.reject(error)` with the original
error.  The result is the storage after the interceptor together with the
rejected error. -/
def responseErrorInterceptor (e : ResponseError) (s : Storage) :
    Storage × ResponseError :=
  if e.status = some 401 then
    (multiRemove s [STORAGE_KEYS_TOKEN, STORAGE_KEYS_USER], e)
  else
    (s, e)

/-- An axios request config, restricted to the headers the request
interceptor touches: the `Authorization` header, the `Content-Type`
header, and whether `config.data` is a `FormData`. -/
structure RequestConfig where
  authorization : Option String
  contentType : Option String
  isFormData : Bool
deriving DecidableEq, Repr

/-- The default config of a request issued through `apiClient`
(`axios.create` sets `Content-Type: application/json`; no request in this
repository sets its own `Authorization` header). -/
def defaultRequestConfig : RequestConfig :=
  { authorization := none
    contentType := some "application/json"
    isFormData := false }

/-- The request interceptor of `apiClient` (src/unnamed/part_004 lines
15-40): it reads `AsyncStorage.getItem(STORAGE_KEYS.TOKEN)` and, under
the JavaScript truthiness test `if (token && config.headers)`, sets
`config.headers.Authorization = ` `` `Bearer ${token}` ``; for `FormData`
bodies it deletes the `Content-Type` header.  A stored empty string is
falsy in JavaScript, so it sets no header. -/
def applyAuthHeader (s : Storage) (c : RequestConfig) : RequestConfig :=
  match s STORAGE_KEYS_TOKEN with
  | some token =>
      if token ≠ "" then
        { c with authorization := some ("Bearer " ++ token) }
      else c
  | none => c

/-- Second mutation of the request interceptor: `if (config.data
instanceof FormData && config.headers) delete
config.headers['Content-Type']`. -/
def stripFormDataContentType (c : RequestConfig) : RequestConfig :=
  if c.isFormData then { c with contentType := none } else c

/-- The whole request interceptor: auth header first, then the
`FormData` `Content-Type` fix-up. -/
def requestInterceptor (s : Storage) (c : RequestConfig) : RequestConfig :=
  stripFormDataContentType (applyAuthHeader s c)

/-- The `User` DTO of `authService.ts`, restricted to the fields the auth
context stores (the remaining fields ride along in `raw`). -/
structure AuthUser where
  id : String
  email : String
  raw : String
deriving DecidableEq, Repr

/-- The transient auth state of `AuthProvider`: the `user` and `token`
`useState` cells. -/
structure AuthState where
  user : Option AuthUser
  token : Option String
deriving DecidableEq, Repr

/-- Field `isAuthenticated: !!user && !!token` (AuthContext value). -/
def isAuthenticated (st : AuthState) : Bool :=
  st.user.isSome && st.token.isSome

/-- Function `clearAuthData` (AuthContext): `setUser(null)`, `setToken(null)`,
`AsyncStorage.multiRemove([STORAGE_KEYS.TOKEN, STORAGE_KEYS.USER])`. -/
def clearAuthData (s : Storage) : AuthState × Storage :=
  ({ user := none, token := none },
    multiRemove s [STORAGE_KEYS_TOKEN, STORAGE_KEYS_USER])

/-- Function `AuthProvider.logout`: `try { await authService.logout() } catch
(error) { console.error(...) } finally { await clearAuthData() }`.  The
outcome of the server `POST /api/auth/logout` is the `serverResult`
parameter; on the error path only a log is emitted, and `clearAuthData`
runs in both paths because it is in the `finally` branch.  (In fact
`AuthService.logout` already swallows its own errors, so the catch is
doubly unreachable; the embedding keeps the `try`/`catch` shape.) -/
def authLogout (serverResult : Except ResponseError Unit) (s : Storage) :
    AuthState × Storage :=
  match serverResult with
  | Except.ok _ => clearAuthData s
  | Except.error _ => clearAuthData s

/-! ### Signup / login / OTP form handlers

`SignupScreen.validateForm` / `handleSignup` and `OTPScreen.handleVerify`
(src/src/screens/auth/SignupScreen.tsx), `LoginScreen.handleLogin`
(src/unnamed/part_001).  JavaScript strings are modelled as `List Char`
here because trimming, case mapping and the email regular expression work
character by character; the character classes (`\s`, `[a-z]`, `[A-Z]`,
`\d`, `[^A-Za-z0-9]`) are the ASCII classes of the JS regexes, modelled
with the corresponding ASCII `Char` predicates. -/

/-- Method `String.prototype.trim`: strip leading and trailing whitespace. -/
def trimList (cs : List Char) : List Char :=
  ((cs.dropWhile Char.isWhitespace).reverse.dropWhile
    Char.isWhitespace).reverse

/-- Method `String.prototype.toLowerCase`, on the ASCII range. -/
def jsToLower (cs : List Char) : List Char :=
  cs.map Char.toLower

/-- A character admitted by the regex class `[^\s@]`. -/
def isEmailChar (c : Char) : Bool :=
  !c.isWhitespace && !(c = '@')

/-- Matcher for the trailing `[^\s@]+$` of the email regex. -/
def matchLast (cs : List Char) : Bool :=
  !cs.isEmpty && cs.all isEmailChar

/-- Matcher for `([^\s@])*\.[^\s@]+$` with backtracking: either this
character is the literal dot and the rest matches `[^\s@]+$`, or it is a
`[^\s@]` character and the tail matches again. -/
def matchDotTail : List Char → Bool
  | [] => false
  | c :: cs => (c = '.' && matchLast cs) || (isEmailChar c && matchDotTail cs)

/-- Matcher for `[^\s@]+\.[^\s@]+$` (the part after the `@`). -/
def matchDomain : List Char → Bool
  | [] => false
  | c :: cs => isEmailChar c && matchDotTail cs

/-- Matcher for `([^\s@])*@[^\s@]+\.[^\s@]+$`: either this character is
the literal `@` and the rest matches the domain, or it is a `[^\s@]`
character and the tail matches again. -/
def matchAtTail : List Char → Bool
  | [] => false
  | c :: cs => (c = '@' && matchDomain cs) || (isEmailChar c && matchAtTail cs)

/-- The test `/^[^\s@]+@[^\s@]+\.[^\s@]+$/.test(email)` (SignupScreen.tsx line
81). -/
def emailRegexTest : List Char → Bool
  | [] => false
  | c :: cs => isEmailChar c && matchAtTail cs

/-- The signup form fields (`firstName`, `lastName`, `email`, `password`,
`confirmPassword` state of `SignupScreen`). -/
structure SignupForm where
  firstName : List Char
  lastName : List Char
  email : List Char
  password : List Char
  confirmPassword : List Char
deriving DecidableEq, Repr

/-- Function `validateForm` (SignupScreen.tsx lines 68-103): it fills `newErrors`
from five independent `if`/`else if` chains and returns
`Object.keys(newErrors).length === 0`.  Each chain collapses to "some
branch fired", so the result is the negation of the disjunction of the
error conditions. -/
def validateForm (f : SignupForm) : Bool :=
  let firstNameErr := (trimList f.firstName).isEmpty
  let lastNameErr := (trimList f.lastName).isEmpty
  let emailErr := (trimList f.email).isEmpty || !emailRegexTest f.email
  let passwordErr := f.password.isEmpty || f.password.length < 8 ||
    !(f.password.any Char.isLower && f.password.any Char.isUpper &&
      f.password.any Char.isDigit &&
      f.password.any (fun c => !c.isAlphanum)) ||
    f.password.any Char.isWhitespace
  let confirmErr := f.confirmPassword.isEmpty ||
    !(f.password = f.confirmPassword)
  !(firstNameErr || lastNameErr || emailErr || passwordErr || confirmErr)

/-- The body `handleSignup` posts to `/auth/signup` (via
`AuthContext.signup` and `authService.signup`). -/
structure SignupRequest where
  email : List Char
  password : List Char
  confirmPassword : List Char
  firstName : List Char
  lastName : List Char
deriving DecidableEq, Repr

/-- Function `handleSignup` (SignupScreen.tsx lines 105-128): returns early when
`validateForm()` is false (no request), otherwise submits the trimmed
lower-cased email, the passwords as entered, and the trimmed names.
`none` means no network request was issued. -/
def handleSignup (f : SignupForm) : Option SignupRequest :=
  if validateForm f then
    some
      { email := jsToLower (trimList f.email)
        password := f.password
        confirmPassword := f.confirmPassword
        firstName := trimList f.firstName
        lastName := trimList f.lastName }
  else none

/-- Constant `APP_CONFIG.OTP_LENGTH` (config/constants). -/
def OTP_LENGTH : Nat := 6

/-- The body `handleVerify` posts to `/auth/verify-otp`. -/
structure VerifyRequest where
  email : List Char
  otp : List Char
deriving DecidableEq, Repr

/-- Function `handleVerify` (OTPScreen, SignupScreen.tsx lines 524-544): joins the
OTP digit cells, raises a local alert and returns without a request when
the joined length differs from `APP_CONFIG.OTP_LENGTH`, and otherwise
calls `verifyOTP({ email, otp: otpCode })`.  `none` means the local
error path. -/
def handleVerify (email : List Char) (otp : List (List Char)) :
    Option VerifyRequest :=
  if otp.flatten.length ≠ OTP_LENGTH then none
  else some { email := email, otp := otp.flatten }

/-- The catch branch of `handleVerify` on a failed verification:
`setOtp(Array(APP_CONFIG.OTP_LENGTH).fill(''))`. -/
def handleVerifyErrorReset : List (List Char) :=
  List.replicate OTP_LENGTH []

/-- The body `handleLogin` posts to `/auth/login`. -/
structure LoginRequest where
  email : List Char
  password : List Char
deriving DecidableEq, Repr

/-- Function `handleLogin` (LoginScreen, src/unnamed/part_001 lines 567-581):
alerts and returns without a request when either trimmed field is empty,
otherwise calls `login({ email: email.trim().toLowerCase(), password })`.
`none` means no network request was issued. -/
def handleLogin (email password : List Char) : Option LoginRequest :=
  if (trimList email).isEmpty || (trimList password).isEmpty then none
  else some { email := jsToLower (trimList email), password := password }

/-! ### Exercise plan toggle (ExercisePlansScreen, src/unnamed/part_002) -/

/-- The `POST /activity/exercise/log` body sent by `toggleExercise`. -/
structure ExerciseLogRequest where
  severityLevel : String
  completedExercises : List String
  totalExercises : Nat
deriving DecidableEq, Repr

/-- The membership flip inside `toggleExercise` (lines 150-152):
`completedExercises.includes(id) ? completedExercises.filter(x => x !==
id) : [...completedExercises, id]`. -/
def toggleCompleted (completed : List String) (id : String) :
    List String :=
  if id ∈ completed then completed.filter (fun x => !(x = id))
  else completed ++ [id]

/-- Function `toggleExercise` (src/unnamed/part_002 lines 147-179): bails out when
no plan is selected (no state change, no request); otherwise it sets
`completedExercises` to the flipped list, posts it, and in the catch
branch restores the closure's pre-toggle `completedExercises`.  The
result is the final `completedExercises` state together with the request
that was posted (`none` when the guard bailed out). -/
def toggleExercise (selectedPlan : Option String) (totalExercises : Nat)
    (completed : List String) (id : String) (saveOk : Bool) :
    List String × Option ExerciseLogRequest :=
  match selectedPlan with
  | none => (completed, none)
  | some level =>
      let newCompleted := toggleCompleted completed id
      if saveOk then
        (newCompleted,
          some { severityLevel := level, completedExercises := newCompleted,
                 totalExercises := totalExercises })
      else
        (completed,
          some { severityLevel := level, completedExercises := newCompleted,
                 totalExercises := totalExercises })

end KneeKlinic

namespace KneeKlinic

/-- C1: the accelerometer listener is a two-state machine on the derived
acceleration value `sqrt(x^2+y^2+z^2) - 1`: from `'down'` it moves to
`'up'` exactly when the sample exceeds `+0.08`; from `'up'` it moves back
to `'down'` exactly when the sample falls below `-0.08`; the step count is
incremented by one exactly on an up-to-down transition with strictly more
than `250` ms elapsed since `lastStepTime` (the time of the last counted
step, initialised to the session start); a falling edge inside the
refractory period only resets the state, counting nothing. -/
theorem step_detection_machine_spec (st : StepMachine) (a : ℚ) (now : Int) :
    (st.phase = StepPhase.down →
      ((accelListener st a now).phase = StepPhase.up ↔ a > stepThreshold)) ∧
    (st.phase = StepPhase.up →
      ((accelListener st a now).phase = StepPhase.down ↔ a < -stepThreshold)) ∧
    ((accelListener st a now).steps = st.steps + 1 ↔
      (st.phase = StepPhase.up ∧ a < -stepThreshold ∧
        now - st.lastStepTime > minStepInterval)) ∧
    (¬(st.phase = StepPhase.up ∧ a < -stepThreshold ∧
        now - st.lastStepTime > minStepInterval) →
      (accelListener st a now).steps = st.steps) ∧
    (st.phase = StepPhase.up → a < -stepThreshold →
      ¬(now - st.lastStepTime > minStepInterval) →
      accelListener st a now = { st with phase := StepPhase.down }) := by
  unfold accelListener
  rcases st with ⟨ph, t, n⟩
  refine ⟨?_, ?_, ?_, ?_, ?_⟩
  · intro hph
    cases ph <;> split_ifs <;> simp_all
  · intro hph
    cases ph <;> split_ifs <;> simp_all
  · cases ph <;> split_ifs <;> simp_all
  · intro hno
    cases ph <;> split_ifs <;> simp_all
  · intro hph ha ht
    cases ph <;> split_ifs <;> simp_all

/-- Witness for C1 at a concrete sample: from `'up'` with a `-0.1` sample
`300` ms after the last step, the machine counts one step. -/
theorem step_detection_machine_spec_witness :
    (accelListener
      { phase := StepPhase.up, lastStepTime := 0, steps := 5 }
      (-(1 / 10)) 300).steps = 5 + 1 :=
  ((step_detection_machine_spec
      { phase := StepPhase.up, lastStepTime := 0, steps := 5 }
      (-(1 / 10)) 300).2.2.1).mpr
    ⟨rfl, by norm_num [stepThreshold], by norm_num [minStepInterval]⟩

/-- C2: with `n` session steps, the reported distance is `n × 0.762`
metres — displayed as `(n × 0.762) / 1000` km — and the reported calories
are `n × 0.04` kcal, identically in the live display
(`calculateDistance`, `calculateCalories`) and in the session summary
computed by `stopCounting`. -/
theorem step_metrics_spec (n : ℕ) :
    calculateDistance n * 1000 = n * (762 / 1000) ∧
    calculateDistance n = (n * (762 / 1000)) / 1000 ∧
    calculateCalories n = n * (4 / 100) ∧
    stopCountingDistance n = calculateDistance n ∧
    stopCountingCalories n = calculateCalories n := by
  refine ⟨?_, rfl, rfl, rfl, rfl⟩
  unfold calculateDistance
  ring

/-- Per-sample monotonicity lemma shared by the trace-level argument. -/
theorem accelListener_steps_le (st : StepMachine) (a : ℚ) (t : Int) :
    st.steps ≤ (accelListener st a t).steps := by
  unfold accelListener
  split_ifs <;> simp

/-- Trace-level monotonicity lemma shared by the claim theorem. -/
theorem runListener_steps_le (st : StepMachine) (trace : List (ℚ × Int)) :
    st.steps ≤ (runListener st trace).steps := by
  induction trace generalizing st with
  | nil => exact le_refl _
  | cons p rest ih =>
    exact le_trans (accelListener_steps_le st p.1 p.2) (ih _)

/-- C3: `startCounting` initialises the session step count to `0`; each
listener invocation leaves the count unchanged or increments it by exactly
one; hence along any sample trace from the start state the count never
decreases and is always non-negative. -/
theorem session_steps_monotone_nonneg (now : Int) (st : StepMachine)
    (a : ℚ) (t : Int) (trace extra : List (ℚ × Int)) :
    (startCountingState now).steps = 0 ∧
    ((accelListener st a t).steps = st.steps ∨
      (accelListener st a t).steps = st.steps + 1) ∧
    (runListener (startCountingState now) trace).steps ≤
      (runListener (startCountingState now) (trace ++ extra)).steps ∧
    0 ≤ (runListener (startCountingState now) trace).steps := by
  refine ⟨rfl, ?_, ?_, ?_⟩
  · unfold accelListener
    split_ifs <;> simp
  · have happ : runListener (startCountingState now) (trace ++ extra) =
        runListener (runListener (startCountingState now) trace) extra := by
      simp [runListener, List.foldl_append]
    rw [happ]
    exact runListener_steps_le (runListener (startCountingState now) trace)
      extra
  · exact runListener_steps_le (startCountingState now) trace

/-- C4: the response-error interceptor clears the stored credentials if
and only if the response status is `401`: exactly then it removes the two
fixed keys (touching no other key), on every other status and on network
errors (`status = none`) it leaves storage unchanged, and it always
rejects with the original error. -/
theorem response_interceptor_401_spec (e : ResponseError) (s : Storage) :
    (responseErrorInterceptor e s).2 = e ∧
    (e.status = some 401 →
      (responseErrorInterceptor e s).1 STORAGE_KEYS_TOKEN = none ∧
      (responseErrorInterceptor e s).1 STORAGE_KEYS_USER = none ∧
      ∀ k, k ≠ STORAGE_KEYS_TOKEN → k ≠ STORAGE_KEYS_USER →
        (responseErrorInterceptor e s).1 k = s k) ∧
    (e.status ≠ some 401 → (responseErrorInterceptor e s).1 = s) := by
  refine ⟨?_, ?_, ?_⟩
  · unfold responseErrorInterceptor
    split_ifs <;> rfl
  · intro h401
    unfold responseErrorInterceptor
    rw [if_pos h401]
    refine ⟨?_, ?_, ?_⟩
    · simp [multiRemove, removeItem]
    · simp [multiRemove, removeItem]
    · intro k hk1 hk2
      simp [multiRemove, removeItem, hk1, hk2]
  · intro hother
    unfold responseErrorInterceptor
    rw [if_neg hother]

/-- Witness for C4: a `401` error against a storage holding both keys
ends with the token key cleared. -/
theorem response_interceptor_401_spec_witness :
    (responseErrorInterceptor { status := some 401, message := "Unauthorized" }
      (fun _ => some "tok")).1 STORAGE_KEYS_TOKEN = none :=
  ((response_interceptor_401_spec
      { status := some 401, message := "Unauthorized" }
      (fun _ => some "tok")).2.1 rfl).1

/-- C5: `AuthProvider.logout` always ends with the auth state fully
discarded — `user = null`, `token = null`, `isAuthenticated = false`, and
both fixed storage keys removed — whether the server logout `POST`
succeeds or throws, because the clearing runs in the `finally` branch. -/
theorem logout_clears_auth_spec (r : Except ResponseError Unit)
    (s : Storage) :
    (authLogout r s).1.user = none ∧
    (authLogout r s).1.token = none ∧
    isAuthenticated (authLogout r s).1 = false ∧
    (authLogout r s).2 STORAGE_KEYS_TOKEN = none ∧
    (authLogout r s).2 STORAGE_KEYS_USER = none := by
  cases r <;>
    refine ⟨rfl, rfl, rfl, ?_, ?_⟩ <;>
      simp [authLogout, clearAuthData, multiRemove, removeItem,
        STORAGE_KEYS_TOKEN, STORAGE_KEYS_USER]

/-- C6 counterexample: the claim says that whenever a token is stored
under `'@kneeklinic:token'` the outgoing request's `Authorization` header
equals `'Bearer '` + token.  With the empty string stored — which is a
stored token — the JavaScript truthiness test `if (token && ...)` fails
and the interceptor attaches no header at all. -/
theorem request_interceptor_empty_token_cex :
    (fun (_ : String) => some "") STORAGE_KEYS_TOKEN = some "" ∧
    (requestInterceptor (fun _ => some "") defaultRequestConfig).authorization
      ≠ some ("Bearer " ++ "") ∧
    (requestInterceptor (fun _ => some "") defaultRequestConfig).authorization
      = none := by
  refine ⟨rfl, by decide, by decide⟩

/-- C6 (amended): for every request, if a non-empty token is stored under
`'@kneeklinic:token'` the request's `Authorization` header equals
`'Bearer '` concatenated with that token; if no token — or the empty
string, which is falsy — is stored, the `Authorization` header is left
unchanged, and in particular a request built from the client's default
config carries no `Authorization` header. -/
theorem request_interceptor_bearer_spec (s : Storage) (c : RequestConfig) :
    (∀ t, s STORAGE_KEYS_TOKEN = some t → t ≠ "" →
      (requestInterceptor s c).authorization = some ("Bearer " ++ t)) ∧
    (s STORAGE_KEYS_TOKEN = none ∨ s STORAGE_KEYS_TOKEN = some "" →
      (requestInterceptor s c).authorization = c.authorization) ∧
    (s STORAGE_KEYS_TOKEN = none ∨ s STORAGE_KEYS_TOKEN = some "" →
      (requestInterceptor s defaultRequestConfig).authorization = none) := by
  refine ⟨?_, ?_, ?_⟩
  · intro t hst ht
    have h1 : applyAuthHeader s c =
        { c with authorization := some ("Bearer " ++ t) } := by
      unfold applyAuthHeader
      rw [hst]
      simp [ht]
    rw [requestInterceptor, h1]
    unfold stripFormDataContentType
    split_ifs <;> rfl
  · rintro (hst | hst) <;>
      · have h1 : applyAuthHeader s c = c := by
          unfold applyAuthHeader
          rw [hst]
          all_goals simp
        rw [requestInterceptor, h1]
        unfold stripFormDataContentType
        split_ifs <;> rfl
  · rintro (hst | hst) <;>
      · have h1 : applyAuthHeader s defaultRequestConfig =
            defaultRequestConfig := by
          unfold applyAuthHeader
          rw [hst]
          all_goals simp
        rw [requestInterceptor, h1]
        rfl

/-- Witness for C6 (amended): with `"tok"` stored, the interceptor
attaches `Authorization: Bearer tok` to the default config. -/
theorem request_interceptor_bearer_spec_witness :
    (requestInterceptor
      (fun k => if k = STORAGE_KEYS_TOKEN then some "tok" else none)
      defaultRequestConfig).authorization = some ("Bearer " ++ "tok") :=
  (request_interceptor_bearer_spec
      (fun k => if k = STORAGE_KEYS_TOKEN then some "tok" else none)
      defaultRequestConfig).1 "tok" (by simp) (by decide)

/-! Supporting lemmas for the signup-form claim: every string accepted by
the email regex is non-empty and whitespace-free, so trimming it is the
identity; this reconciles the code's `!email.trim()` emptiness check with
the claim's plain non-emptiness. -/

/-- Characters of the class `[^\s@]` are not whitespace. -/
theorem isEmailChar_not_ws {c : Char} (h : isEmailChar c = true) :
    c.isWhitespace = false := by
  simp only [isEmailChar, Bool.and_eq_true, Bool.not_eq_true'] at h
  exact h.1

/-- Strings matched by `[^\s@]+$` contain no whitespace. -/
theorem matchLast_not_ws {cs : List Char} (h : matchLast cs = true) :
    ∀ c ∈ cs, c.isWhitespace = false := by
  intro c hc
  simp only [matchLast, Bool.and_eq_true, List.all_eq_true] at h
  exact isEmailChar_not_ws (h.2 c hc)

/-- Strings matched by the dot-tail matcher contain no whitespace. -/
theorem matchDotTail_not_ws :
    ∀ cs : List Char, matchDotTail cs = true →
      ∀ c ∈ cs, c.isWhitespace = false := by
  intro cs
  induction cs with
  | nil => intro h c hc; cases hc
  | cons a rest ih =>
    intro h c hc
    simp only [matchDotTail, Bool.or_eq_true, Bool.and_eq_true] at h
    rcases List.mem_cons.mp hc with hc | hc
    · rcases h with ⟨ha, _⟩ | ⟨ha, _⟩
      · subst hc
        rw [of_decide_eq_true ha]
        rfl
      · subst hc
        exact isEmailChar_not_ws ha
    · rcases h with ⟨_, htail⟩ | ⟨_, htail⟩
      · exact matchLast_not_ws htail c hc
      · exact ih htail c hc

/-- Strings matched by `[^\s@]+\.[^\s@]+$` contain no whitespace. -/
theorem matchDomain_not_ws {cs : List Char} (h : matchDomain cs = true) :
    ∀ c ∈ cs, c.isWhitespace = false := by
  intro c hc
  cases cs with
  | nil => cases hc
  | cons a rest =>
    simp only [matchDomain, Bool.and_eq_true] at h
    rcases List.mem_cons.mp hc with hc | hc
    · subst hc; exact isEmailChar_not_ws h.1
    · exact matchDotTail_not_ws rest h.2 c hc

/-- Strings matched by the at-tail matcher contain no whitespace. -/
theorem matchAtTail_not_ws :
    ∀ cs : List Char, matchAtTail cs = true →
      ∀ c ∈ cs, c.isWhitespace = false := by
  intro cs
  induction cs with
  | nil => intro h c hc; cases hc
  | cons a rest ih =>
    intro h c hc
    simp only [matchAtTail, Bool.or_eq_true, Bool.and_eq_true] at h
    rcases List.mem_cons.mp hc with hc | hc
    · rcases h with ⟨ha, _⟩ | ⟨ha, _⟩
      · subst hc
        rw [of_decide_eq_true ha]
        rfl
      · subst hc
        exact isEmailChar_not_ws ha
    · rcases h with ⟨_, htail⟩ | ⟨_, htail⟩
      · exact matchDomain_not_ws htail c hc
      · exact ih htail c hc

/-- Strings accepted by the email regex contain no whitespace. -/
theorem emailRegexTest_not_ws {cs : List Char}
    (h : emailRegexTest cs = true) : ∀ c ∈ cs, c.isWhitespace = false := by
  intro c hc
  cases cs with
  | nil => cases hc
  | cons a rest =>
    simp only [emailRegexTest, Bool.and_eq_true] at h
    rcases List.mem_cons.mp hc with hc | hc
    · subst hc; exact isEmailChar_not_ws h.1
    · exact matchAtTail_not_ws rest h.2 c hc

/-- Strings accepted by the email regex are non-empty. -/
theorem emailRegexTest_ne_nil {cs : List Char}
    (h : emailRegexTest cs = true) : cs ≠ [] := by
  intro hnil
  subst hnil
  simp [emailRegexTest] at h

/-- Function `dropWhile` is the identity on lists none of whose elements satisfy
the predicate. -/
theorem dropWhile_eq_self_of_none {p : Char → Bool} {cs : List Char}
    (h : ∀ c ∈ cs, p c = false) : cs.dropWhile p = cs := by
  cases cs with
  | nil => rfl
  | cons a rest => simp [List.dropWhile_cons, h a (by simp)]

/-- Trimming is the identity on whitespace-free strings. -/
theorem trimList_eq_self {cs : List Char}
    (h : ∀ c ∈ cs, c.isWhitespace = false) : trimList cs = cs := by
  have h1 : cs.dropWhile Char.isWhitespace = cs :=
    dropWhile_eq_self_of_none h
  have h2 : cs.reverse.dropWhile Char.isWhitespace = cs.reverse :=
    dropWhile_eq_self_of_none (fun c hc => h c (List.mem_reverse.mp hc))
  unfold trimList
  rw [h1, h2, List.reverse_reverse]

/-- C7: the signup form submits exactly when `validateForm` is true, and
`validateForm` is true exactly when: both names are non-empty after
trimming, the email is non-empty and matches the email regex, the
password is non-empty, at least 8 characters long, contains a lowercase
letter, an uppercase letter, a digit and a non-alphanumeric character,
contains no whitespace, and the confirmation is non-empty and equal to
the password. -/
theorem signup_validation_spec (f : SignupForm) :
    ((handleSignup f).isSome = true ↔ validateForm f = true) ∧
    (validateForm f = true ↔
      (trimList f.firstName ≠ [] ∧ trimList f.lastName ≠ [] ∧
       f.email ≠ [] ∧ emailRegexTest f.email = true ∧
       f.password ≠ [] ∧ 8 ≤ f.password.length ∧
       (∃ c ∈ f.password, c.isLower = true) ∧
       (∃ c ∈ f.password, c.isUpper = true) ∧
       (∃ c ∈ f.password, c.isDigit = true) ∧
       (∃ c ∈ f.password, c.isAlphanum = false) ∧
       (∀ c ∈ f.password, c.isWhitespace = false) ∧
       f.confirmPassword ≠ [] ∧ f.confirmPassword = f.password)) := by
  constructor
  · unfold handleSignup
    split_ifs with h <;> simp [h]
  · have hbridge : emailRegexTest f.email = true →
        (¬trimList f.email = [] ↔ ¬f.email = []) := by
      intro hre
      rw [trimList_eq_self (emailRegexTest_not_ws hre)]
    have hsym : f.password = f.confirmPassword ↔
        f.confirmPassword = f.password := eq_comm
    simp only [ne_eq]
    simp [validateForm, List.isEmpty_iff, List.any_eq_true, Nat.not_lt]
    tauto

/-- C8: `handleVerify` raises the local error (and issues no request)
exactly when the joined OTP code's length differs from the configured
`OTP_LENGTH = 6`; the verify request is issued exactly when the joined
code is 6 characters, carrying that code; and the catch branch resets the
input to 6 empty digit cells. -/
theorem otp_verify_spec (email : List Char) (otp : List (List Char)) :
    (handleVerify email otp = none ↔ otp.flatten.length ≠ OTP_LENGTH) ∧
    (∀ r, handleVerify email otp = some r →
      r.otp = otp.flatten ∧ r.email = email ∧
      otp.flatten.length = OTP_LENGTH) ∧
    OTP_LENGTH = 6 ∧
    handleVerifyErrorReset = [[], [], [], [], [], []] := by
  refine ⟨?_, ?_, rfl, rfl⟩
  · unfold handleVerify
    split_ifs with h
    · exact iff_of_true rfl h
    · exact iff_of_false (by simp) h
  · intro r hr
    unfold handleVerify at hr
    split_ifs at hr with h
    cases hr
    exact ⟨rfl, rfl, by simpa using h⟩

/-- Witness for C8: six one-digit cells yield a request whose `otp` field
is the six joined characters. -/
theorem otp_verify_spec_witness :
    ({ email := ['e'], otp := ['1', '2', '3', '4', '5', '6'] } :
        VerifyRequest).otp =
      [['1'], ['2'], ['3'], ['4'], ['5'], ['6']].flatten :=
  ((otp_verify_spec ['e'] [['1'], ['2'], ['3'], ['4'], ['5'], ['6']]).2.1
    { email := ['e'], otp := ['1', '2', '3', '4', '5', '6'] } rfl).1

/-- C9 counterexample: the claim says login submissions transmit the
email unchanged.  Entering the email `"A@b.com"` (with password
`"Secret1!"`) issues a login request whose email field is the lower-cased
`"a@b.com"`, not the entered string. -/
theorem login_email_unchanged_cex :
    (handleLogin ('A' :: "@b.com".data) "Secret1!".data).map
        LoginRequest.email = some ('a' :: "@b.com".data) ∧
    ('a' :: "@b.com".data) ≠ ('A' :: "@b.com".data) := by
  exact ⟨by decide, by decide⟩

/-- C9 (amended): the client performs no normalization of user-entered
values beyond basic form checks, except that the email is trimmed and
lower-cased before transmission (in both login and signup) and the
signup first/last names are trimmed; the passwords are transmitted
exactly as entered. -/
theorem submitted_values_spec (email password : List Char)
    (f : SignupForm) :
    (∀ r, handleLogin email password = some r →
      r.email = jsToLower (trimList email) ∧ r.password = password) ∧
    (∀ r, handleSignup f = some r →
      r.email = jsToLower (trimList f.email) ∧
      r.password = f.password ∧
      r.confirmPassword = f.confirmPassword ∧
      r.firstName = trimList f.firstName ∧
      r.lastName = trimList f.lastName) := by
  constructor
  · intro r hr
    unfold handleLogin at hr
    split_ifs at hr with h
    cases hr
    exact ⟨rfl, rfl⟩
  · intro r hr
    unfold handleSignup at hr
    split_ifs at hr with h
    cases hr
    exact ⟨rfl, rfl, rfl, rfl, rfl⟩

/-- Witness for C9 (amended) at a concrete login submission. -/
theorem submitted_values_spec_witness :
    ({ email := "a@b.com".data, password := "Secret1!".data } :
        LoginRequest).email = jsToLower (trimList ('A' :: "@b.com".data)) :=
  ((submitted_values_spec ('A' :: "@b.com".data) "Secret1!".data
      { firstName := [], lastName := [], email := [], password := [],
        confirmPassword := [] }).1
    { email := "a@b.com".data, password := "Secret1!".data }
    (by decide)).1

/-- C10: with a selected plan, `toggleExercise` flips the exercise's
membership (removing it when present, appending it when absent), posts
the flipped list, and on a failed save restores `completedExercises` to
exactly its pre-toggle value, while a successful save keeps the flipped
list. -/
theorem toggle_exercise_spec (level : String) (total : Nat)
    (completed : List String) (id : String) :
    ((toggleExercise (some level) total completed id true).1 =
      toggleCompleted completed id) ∧
    ((toggleExercise (some level) total completed id false).1 =
      completed) ∧
    (∀ ok, (toggleExercise (some level) total completed id ok).2 =
      some { severityLevel := level
             completedExercises := toggleCompleted completed id
             totalExercises := total }) ∧
    (id ∈ completed →
      toggleCompleted completed id =
        completed.filter (fun x => !(x = id)) ∧
      id ∉ toggleCompleted completed id) ∧
    (id ∉ completed →
      toggleCompleted completed id = completed ++ [id] ∧
      id ∈ toggleCompleted completed id) := by
  refine ⟨rfl, rfl, ?_, ?_, ?_⟩
  · intro ok
    cases ok <;> rfl
  · intro hmem
    unfold toggleCompleted
    rw [if_pos hmem]
    refine ⟨rfl, ?_⟩
    intro habs
    rcases List.mem_filter.mp habs with ⟨-, hkeep⟩
    simp at hkeep
  · intro hmem
    unfold toggleCompleted
    rw [if_neg hmem]
    exact ⟨rfl, by simp⟩

/-- Witness for C10: toggling `"e2"` out of `["e1", "e2"]` with a failing
save leaves the list unchanged, while the flip itself removes `"e2"`. -/
theorem toggle_exercise_spec_witness :
    (toggleExercise (some "moderate") 5 ["e1", "e2"] "e2" false).1 =
      ["e1", "e2"] ∧
    toggleCompleted ["e1", "e2"] "e2" =
      (["e1", "e2"] : List String).filter (fun x => !(x = "e2")) :=
  ⟨(toggle_exercise_spec "moderate" 5 ["e1", "e2"] "e2").2.1,
    ((toggle_exercise_spec "moderate" 5 ["e1", "e2"] "e2").2.2.2.1
      (by decide)).1⟩

end KneeKlinic
